import Mathlib

/-!
Verification of the video-worker pipeline (`video_processor.py`).

Shallow embedding of the `VideoProcessor` class of
`src/video-worker/video_processor.py`.  The external media engine
(`ffmpeg` / `ffprobe` subprocess invocations) and the filesystem are
modelled by an oracle (`Env`) giving the outcome of each call site;
file paths are modelled as strings relative to the project's output
directory (the constant project-directory prefix carries no
information).  Every status update performed through
`VideoProcessor.update_status` is recorded, in call order, in a trace,
which is what an observer of the persisted status record (and of the
log) sees.
-/

set_option maxRecDepth 4000

namespace VideoWorker

/-- One image entry of `config["images"]` (a filename reference). -/
structure ImageAsset where
  filename : String
deriving DecidableEq

/-- The `config["audio"]["narration"]` record. -/
structure NarrationAsset where
  filename : String
deriving DecidableEq

/-- The `config["audio"]` section. -/
structure AudioSection where
  narration : NarrationAsset
deriving DecidableEq

/-- The optional `config["thumbnail"]` record. -/
structure ThumbnailAsset where
  filename : String
deriving DecidableEq

/-- The project configuration record (`config.json`), as read and mutated by
`VideoProcessor`.  `selectedSoundtrack`, `selectedFilter` and `thumbnail` are
optional keys (`config.get(...)`); `outputFile` and `completedAt` are written
only on completion. -/
structure Config where
  id : String
  images : List ImageAsset
  audio : AudioSection
  selectedSoundtrack : Option String
  selectedFilter : Option String
  thumbnail : Option ThumbnailAsset
  status : String
  progress : Nat
  message : String
  outputFile : Option String
  completedAt : Option String
deriving DecidableEq

/-- One call to `update_status`, recording its three arguments (this is also
exactly what the `print` line of `update_status` shows). -/
structure StatusUpdate where
  status : String
  progress : Nat
  message : String
deriving DecidableEq

/-- Durable content of `config.json`.  `record c` is a complete serialized
configuration; `truncated` is the content left behind when the file has been
opened with mode `"w"` (which truncates in place) but the write has not
completed. -/
inductive FileContent where
  | record (c : Config)
  | truncated
deriving DecidableEq

/-- Crash points of the persistence step
`open(self.config_path, "w")` … `json.dump(self.config, f)`. -/
inductive WriteCrash where
  | beforeOpen
  | afterOpen
  | afterWrite
deriving DecidableEq

/-- Durable `config.json` content if the process stops at the given point of
the persistence step.  Translated from `update_status`: the file is opened in
mode `"w"`, which truncates the existing file in place, and the new record is
then written to the same file (there is no temporary file and no rename). -/
def persistCrash (prev : FileContent) (c : Config) : WriteCrash → FileContent
  | WriteCrash.beforeOpen => prev
  | WriteCrash.afterOpen => FileContent.truncated
  | WriteCrash.afterWrite => FileContent.record c

/-- Mutable state of a `VideoProcessor` run: the in-memory `self.config`, the
durable content of `config.json`, and the trace of `update_status` calls made
so far. -/
structure PState where
  config : Config
  file : FileContent
  trace : List StatusUpdate
deriving DecidableEq

/-- Outcome of one external call site.  `Except.error e` is a
`subprocess.CalledProcessError` whose text is `e`; `Except.ok ()` is a
successful invocation. -/
abbrev CallResult := Except String Unit

/-- Outcome of the `ffprobe` duration query in `add_fade_out`.
`callFailed e` is a non-zero exit (`CalledProcessError`, caught by the stage);
`badOutput raw` is a zero exit whose stdout `raw` is not parseable by Python's
`float` (e.g. `N/A`), so `float(result.stdout.strip())` raises a `ValueError`
that the stage does not catch; `gotDuration` is a zero exit with parseable
output. -/
inductive ProbeOutcome where
  | callFailed (e : String)
  | badOutput (raw : String)
  | gotDuration
deriving DecidableEq

/-- Oracle for the filesystem and for every external invocation of the run,
one field per call site of `video_processor.py`. -/
structure Env where
  /-- `(self.images_dir / filename).exists()` -/
  imageExists : String → Bool
  /-- `(self.audio_dir / filename).exists()` -/
  audioExists : String → Bool
  /-- outcome of the `ffmpeg` scale-and-crop call for image index `i` -/
  imgConvert : Nat → CallResult
  /-- outcome of the narration `ffmpeg` conversion -/
  narrConvert : CallResult
  /-- `Path("public/sounds/" + trackId + ".mp3").exists()` -/
  soundtrackExists : String → Bool
  /-- outcome of the soundtrack `ffmpeg` conversion -/
  strackConvert : CallResult
  /-- outcome of the timeline concat `ffmpeg` call -/
  timeline : CallResult
  /-- outcome of the thumbnail-clip `ffmpeg` call -/
  thumbCreate : CallResult
  /-- outcome of the thumbnail concat `ffmpeg` call -/
  thumbConcat : CallResult
  /-- outcome of the audio-mux `ffmpeg` call -/
  mux : CallResult
  /-- `Path("public/filters/" + filterId + ".mp4").exists()` -/
  filterExists : String → Bool
  /-- outcome of the chroma-key overlay `ffmpeg` call -/
  effects : CallResult
  /-- outcome of the `ffprobe` duration query -/
  probe : ProbeOutcome
  /-- outcome of the fade `ffmpeg` call -/
  fade : CallResult
  /-- stdout of the `date` command used for `completedAt` -/
  dateStr : String

/-- `VideoProcessor.update_status`: overwrites `status` and `progress`;
overwrites `message` only when the argument is non-empty
(`if message:` in the source); then rewrites the whole configuration
record to `config.json` and logs the call. -/
def update_status (s : PState) (status : String) (progress : Nat)
    (message : String) : PState :=
  let c0 := s.config
  let c1 := { c0 with
    status := status
    progress := progress
    message := if message == "" then c0.message else message }
  { config := c1
    file := persistCrash s.file c1 WriteCrash.afterWrite
    trace := s.trace ++ [{ status := status, progress := progress, message := message }] }

/-- Python truthiness of an optional string configuration value
(`self.config.get(key)`): absent and empty are falsy. -/
def truthy : Option String → Bool
  | none => false
  | some v => v != ""

/-- `VideoProcessor.validate_files`: image count must be exactly 30, every
referenced image and the narration file must exist; records the matching
`error` update and returns `False` on the first violation, else records
`processing` at 10 and returns `True`. -/
def validate_files (env : Env) (s : PState) : Bool × PState :=
  if s.config.images.length ≠ 30 then
    (false, update_status s "error" 0
      ("Se requieren 30 imágenes, encontradas: " ++ toString s.config.images.length))
  else
    match s.config.images.find? (fun im => !(env.imageExists im.filename)) with
    | some im =>
        (false, update_status s "error" 0 ("Imagen no encontrada: " ++ im.filename))
    | none =>
        if !(env.audioExists s.config.audio.narration.filename) then
          (false, update_status s "error" 0
            ("Audio de narración no encontrado: " ++ s.config.audio.narration.filename))
        else
          (true, update_status s "processing" 10 "Archivos validados correctamente")

/-- Zero-padded index, Python's `f"{i:02d}"` for a non-negative `i`. -/
def pad2 (i : Nat) : String :=
  if i < 10 then "0" ++ toString i else toString i

/-- Output path of the normalized image of index `i`
(`processed_dir / f"img_{i:02d}.jpg"`, relative to the output directory). -/
def imgOutName (i : Nat) : String :=
  "processed_images/img_" ++ pad2 i ++ ".jpg"

/-- The per-image progress value `10 + int((i + 1) / total * 20)` of
`prepare_images` (Python float arithmetic agrees with this natural floor
division at every index of a 30-image run). -/
def imgProgress (total i : Nat) : Nat :=
  10 + ((i + 1) * 20) / total

/-- The `for i, img_config in enumerate(...)` loop of `prepare_images`:
on success of image `i`, appends its output path and records incremental
progress; on the first failure records `error` and returns the empty list. -/
def prepare_images_loop (env : Env) (total : Nat) :
    List ImageAsset → Nat → List String → PState → List String × PState
  | [], _, acc, s => (acc, s)
  | _ :: rest, i, acc, s =>
    match env.imgConvert i with
    | Except.ok _ =>
        let s1 := update_status s "processing" (imgProgress total i)
          ("Procesando imagen " ++ toString (i + 1) ++ "/30")
        prepare_images_loop env total rest (i + 1) (acc ++ [imgOutName i]) s1
    | Except.error e =>
        ([], update_status s "error" 0
          ("Error procesando imagen " ++ toString (i + 1) ++ ": " ++ e))

/-- `VideoProcessor.prepare_images`. -/
def prepare_images (env : Env) (s : PState) : List String × PState :=
  prepare_images_loop env s.config.images.length s.config.images 0 [] s

/-- The `audio_files` dictionary built by `prepare_audio`, with its two
possible keys. -/
structure AudioFiles where
  narration : Option String
  soundtrack : Option String
deriving DecidableEq

/-- Python truthiness of the `audio_files` dictionary (`if not audio_files:`). -/
def AudioFiles.isEmpty (a : AudioFiles) : Bool :=
  a.narration.isNone && a.soundtrack.isNone

/-- `VideoProcessor.prepare_audio`: a failed narration conversion records
`error` and returns an empty dictionary; on narration success the soundtrack
is converted only when it is selected (truthy) and its library file exists,
and a failed soundtrack conversion only prints a warning (the soundtrack is
dropped, no status update). -/
def prepare_audio (env : Env) (s : PState) : AudioFiles × PState :=
  match env.narrConvert with
  | Except.error e =>
      (⟨none, none⟩, update_status s "error" 0 ("Error procesando audio: " ++ e))
  | Except.ok _ =>
      let s1 := update_status s "processing" 35 "Audio de narración procesado"
      match s.config.selectedSoundtrack with
      | some trackId =>
          if trackId != "" && env.soundtrackExists trackId then
            match env.strackConvert with
            | Except.ok _ =>
                (⟨some "narration.wav", some "soundtrack.wav"⟩,
                 update_status s1 "processing" 40 "Soundtrack procesado")
            | Except.error _ => (⟨some "narration.wav", none⟩, s1)
          else (⟨some "narration.wav", none⟩, s1)
      | none => (⟨some "narration.wav", none⟩, s1)

/-- `VideoProcessor.create_video_timeline`: returns the timeline artifact
path, or `""` with an `error` update on failure. -/
def create_video_timeline (env : Env) (_image_paths : List String)
    (s : PState) : String × PState :=
  match env.timeline with
  | Except.ok _ =>
      ("images_video.mp4", update_status s "processing" 50 "Timeline de video creado")
  | Except.error e =>
      ("", update_status s "error" 0 ("Error creando timeline: " ++ e))

/-- `VideoProcessor.add_thumbnail`: skipped when no thumbnail is configured;
each of its two external calls falls back to the incoming video on failure
(warning print only); records `processing` 60 only on full success. -/
def add_thumbnail (env : Env) (video_path : String) (s : PState) :
    String × PState :=
  match s.config.thumbnail with
  | none => (video_path, s)
  | some _ =>
      match env.thumbCreate with
      | Except.error _ => (video_path, s)
      | Except.ok _ =>
          match env.thumbConcat with
          | Except.ok _ =>
              ("with_thumbnail.mp4", update_status s "processing" 60 "Miniatura agregada")
          | Except.error _ => (video_path, s)

/-- `VideoProcessor.add_audio`: with one or two available audio tracks it
muxes them onto the video (returning `""` with an `error` update if the mux
call fails); with no track it records the `error` update
`"No audio tracks available"` and returns `""`. -/
def add_audio (env : Env) (_video_path : String) (audio_files : AudioFiles)
    (s : PState) : String × PState :=
  let numInputs : Nat :=
    (if audio_files.narration.isSome then 1 else 0) +
    (if audio_files.soundtrack.isSome then 1 else 0)
  if numInputs == 1 || numInputs == 2 then
    match env.mux with
    | Except.ok _ =>
        ("with_audio.mp4", update_status s "processing" 75 "Audio agregado al video")
    | Except.error e =>
        ("", update_status s "error" 0 ("Error agregando audio: " ++ e))
  else
    ("", update_status s "error" 0 "No audio tracks available")

/-- `VideoProcessor.apply_effects`: skipped when no filter is selected
(truthy check) or its library file is missing; a failed overlay call falls
back to the incoming video; records `processing` 85 only on success. -/
def apply_effects (env : Env) (video_path : String) (s : PState) :
    String × PState :=
  match s.config.selectedFilter with
  | none => (video_path, s)
  | some filterId =>
      if filterId != "" then
        if env.filterExists filterId then
          match env.effects with
          | Except.ok _ =>
              ("with_effects.mp4", update_status s "processing" 85 "Efectos visuales aplicados")
          | Except.error _ => (video_path, s)
        else (video_path, s)
      else (video_path, s)

/-- `VideoProcessor.add_fade_out`.  A failed `ffprobe` call or a failed fade
call falls back to the incoming video; but when `ffprobe` exits zero with
output that `float` cannot parse, the `ValueError` escapes the stage
(`Except.error`, carrying the exception text and the state at raise time),
to be caught only by the top-level handler of `process`. -/
def add_fade_out (env : Env) (video_path : String) (s : PState) :
    Except (String × PState) (String × PState) :=
  match env.probe with
  | ProbeOutcome.callFailed _ => Except.ok (video_path, s)
  | ProbeOutcome.badOutput raw =>
      Except.error ("could not convert string to float: " ++ raw, s)
  | ProbeOutcome.gotDuration =>
      match env.fade with
      | Except.ok _ =>
          Except.ok ("final_video.mp4", update_status s "processing" 95 "Fade-out agregado")
      | Except.error _ => Except.ok (video_path, s)

/-- The completion block of `process`: sets `status`/`progress`/`outputFile`/
`completedAt` directly on the configuration (no `update_status` call, so no
trace entry) and rewrites `config.json`.  Artifact paths are single-component
names here, so `os.path.basename` is the identity. -/
def completeRun (env : Env) (final_video : String) (s : PState) : PState :=
  let c1 := { s.config with
    status := "completed"
    progress := 100
    outputFile := some final_video
    completedAt := some env.dateStr }
  { config := c1, file := FileContent.record c1, trace := s.trace }

/-- The body of `VideoProcessor.process` inside its `try`: the stage chain
with its abort checks.  `Except.error` is an exception escaping a stage. -/
def processBody (env : Env) (s : PState) : Except (String × PState) (Bool × PState) :=
  let r1 := validate_files env s
  if !r1.1 then Except.ok (false, r1.2) else
  let r2 := prepare_images env r1.2
  if r2.1.isEmpty then Except.ok (false, r2.2) else
  let r3 := prepare_audio env r2.2
  if r3.1.isEmpty then Except.ok (false, r3.2) else
  let r4 := create_video_timeline env r2.1 r3.2
  if r4.1 == "" then Except.ok (false, r4.2) else
  let r5 := add_thumbnail env r4.1 r4.2
  let r6 := add_audio env r5.1 r3.1 r5.2
  if r6.1 == "" then Except.ok (false, r6.2) else
  let r7 := apply_effects env r6.1 r6.2
  match add_fade_out env r7.1 r7.2 with
  | Except.error err => Except.error err
  | Except.ok r8 => Except.ok (true, completeRun env r8.1 r8.2)

/-- `VideoProcessor.process`: the stage chain wrapped in
`try: ... except Exception as e:` which converts any escaping exception into
the `error` update `"Error inesperado: " + str(e)` and returns `False`. -/
def process (env : Env) (s : PState) : Bool × PState :=
  match processBody env s with
  | Except.ok r => r
  | Except.error (e, sErr) =>
      (false, update_status sErr "error" 0 ("Error inesperado: " ++ e))

/-- Initial run state: the in-memory configuration as loaded, `config.json`
holding the same record, empty trace. -/
def initState (cfg : Config) : PState :=
  { config := cfg, file := FileContent.record cfg, trace := [] }

/-- Observable outcome of a whole `main` invocation: a normal exit with its
code and the trace of status updates performed, or an exception that escaped
to the interpreter (no status update is performed for it). -/
inductive RunOutcome where
  | exited (code : Nat) (trace : List StatusUpdate)
  | uncaught (e : String)
deriving DecidableEq

/-- `main`: exits 1 when the project directory is missing; then constructs
`VideoProcessor`, whose constructor loads `config.json` outside any handler —
a load failure (`load = Except.error e`) propagates uncaught; otherwise runs
`process` and exits 0 on success, 1 on failure. -/
def mainRun (env : Env) (dirExists : Bool) (load : Except String Config) :
    RunOutcome :=
  if !dirExists then RunOutcome.exited 1 []
  else
    match load with
    | Except.error e => RunOutcome.uncaught e
    | Except.ok cfg =>
        let r := process env (initState cfg)
        RunOutcome.exited (if r.1 then 0 else 1) r.2.trace

/-! Concrete fixtures used by witnesses and counterexamples. -/

/-- An oracle on which every filesystem check and every external call
succeeds. -/
def envAllOk : Env :=
  { imageExists := fun _ => true
    audioExists := fun _ => true
    imgConvert := fun _ => Except.ok ()
    narrConvert := Except.ok ()
    soundtrackExists := fun _ => true
    strackConvert := Except.ok ()
    timeline := Except.ok ()
    thumbCreate := Except.ok ()
    thumbConcat := Except.ok ()
    mux := Except.ok ()
    filterExists := fun _ => true
    effects := Except.ok ()
    probe := ProbeOutcome.gotDuration
    fade := Except.ok ()
    dateStr := "Mon Jan 1 00:00:00 UTC 2026" }

/-- Like `envAllOk`, but `ffprobe` exits zero printing `N/A`. -/
def envProbeNA : Env := { envAllOk with probe := ProbeOutcome.badOutput "N/A" }

/-- Like `envAllOk`, but the `ffprobe` call exits non-zero. -/
def envProbeFail : Env :=
  { envAllOk with probe := ProbeOutcome.callFailed "ffprobe exited 1" }

/-- Like `envAllOk`, but the narration conversion fails. -/
def envNarrFail : Env := { envAllOk with narrConvert := Except.error "boom" }

/-- A well-formed configuration with 30 images and no optional assets. -/
def cfg30 : Config :=
  { id := "proj1"
    images := (List.range 30).map (fun i => { filename := "im" ++ toString i ++ ".jpg" })
    audio := { narration := { filename := "narr.mp3" } }
    selectedSoundtrack := none
    selectedFilter := none
    thumbnail := none
    status := "pending"
    progress := 0
    message := ""
    outputFile := none
    completedAt := none }

/-- A configuration with an empty image list. -/
def cfgNoImages : Config := { cfg30 with images := [] }

/-- A run state whose configuration holds a previously stored message. -/
def statePrevMsg : PState := initState { cfg30 with message := "previo" }

/-- The state reached just before the fade stage on a run of `envProbeNA`
over `cfg30` (used to name the state carried by the escaping error). -/
def sPreFade : PState :=
  let s0 := initState cfg30
  let s1 := (validate_files envProbeNA s0).2
  let r2 := prepare_images envProbeNA s1
  let r3 := prepare_audio envProbeNA r2.2
  let r4 := create_video_timeline envProbeNA r2.1 r3.2
  let r5 := add_thumbnail envProbeNA r4.1 r4.2
  let r6 := add_audio envProbeNA r5.1 r3.1 r5.2
  (apply_effects envProbeNA r6.1 r6.2).2

/-! The trace invariant machinery.  Every status update of the pipeline is
classified by bounds on its `processing` progress values; the invariant is
threaded stage by stage through `process`. -/

/-- The message of the unreachable empty-tracks branch of `add_audio`. -/
def noAudioMsg : String := "No audio tracks available"

/-- Relation between two adjacent trace entries: when both have status
`processing`, progress does not decrease. -/
def procPairOk (a b : StatusUpdate) : Prop :=
  a.status = "processing" → b.status = "processing" → a.progress ≤ b.progress

/-- A well-behaved single update for a stage whose `processing` progress
values lie in `[lo, hi]`: an `error` update carries progress 0, a
`processing` update carries progress in the interval, and no update carries
the unreachable `add_audio` message. -/
def goodUpd (lo hi : Nat) (u : StatusUpdate) : Prop :=
  (u.status = "error" → u.progress = 0) ∧
  (u.status = "processing" → lo ≤ u.progress ∧ u.progress ≤ hi) ∧
  u.message ≠ noAudioMsg

/-- `tr'` extends `tr` by a block of well-behaved updates with `processing`
progress in `[lo, hi]`, internally monotone. -/
def ExtendsBy (lo hi : Nat) (tr tr' : List StatusUpdate) : Prop :=
  ∃ d, tr' = tr ++ d ∧ List.Chain' procPairOk d ∧ ∀ u ∈ d, goodUpd lo hi u

/-- Invariant of an accumulated trace: adjacent `processing` progress is
monotone, `error` updates carry progress 0, no unreachable message, and all
`processing` progress is at most `hi`. -/
def TraceInv (hi : Nat) (tr : List StatusUpdate) : Prop :=
  List.Chain' procPairOk tr ∧ ∀ u ∈ tr, goodUpd 0 hi u

/-! Generic helper lemmas. -/

lemma mem_of_getLast?_mem {α : Type} {l : List α} {x : α}
    (h : x ∈ l.getLast?) : x ∈ l := by
  obtain ⟨hne, rfl⟩ := List.mem_getLast?_eq_getLast h
  exact List.getLast_mem hne

lemma mem_of_head?_mem {α : Type} {l : List α} {x : α}
    (h : x ∈ l.head?) : x ∈ l := by
  cases l with
  | nil => simp at h
  | cons a t =>
      simp only [List.head?_cons, Option.mem_def, Option.some.injEq] at h
      rw [← h]; exact List.mem_cons_self a t

/-- The first character of `a ++ b` is the first character of a non-empty
`a`. -/
lemma data_head?_append {a : String} (b : String) {c : Char}
    (h : a.data.head? = some c) : (a ++ b).data.head? = some c := by
  rw [String.data_append]
  cases hda : a.data with
  | nil => rw [hda] at h; exact Option.noConfusion h
  | cons c0 cs => rw [hda] at h; simpa using h

/-- A string that starts with a character other than `'N'` is not the
`add_audio` empty-tracks message. -/
lemma ne_noAudio_of_data_head {m : String} {c : Char}
    (h : m.data.head? = some c) (hc : c ≠ 'N') : m ≠ noAudioMsg := by
  intro he
  have hN : noAudioMsg.data.head? = some 'N' := by decide
  rw [he, hN] at h
  exact hc (Option.some.inj h).symm

/-! Basic facts about `goodUpd`, `ExtendsBy` and `TraceInv`. -/

lemma goodUpd_mono {lo lo' hi hi' : Nat} {u : StatusUpdate}
    (hlo : lo' ≤ lo) (hhi : hi ≤ hi') (h : goodUpd lo hi u) :
    goodUpd lo' hi' u := by
  refine ⟨h.1, fun hp => ?_, h.2.2⟩
  obtain ⟨h1, h2⟩ := h.2.1 hp
  exact ⟨le_trans hlo h1, le_trans h2 hhi⟩

lemma goodUpd_error {lo hi : Nat} {m : String} (hm : m ≠ noAudioMsg) :
    goodUpd lo hi ⟨"error", 0, m⟩ :=
  have hne : ("error" : String) ≠ "processing" := by decide
  ⟨fun _ => rfl, fun h => absurd h hne, hm⟩

lemma goodUpd_processing {lo hi p : Nat} {m : String}
    (h1 : lo ≤ p) (h2 : p ≤ hi) (hm : m ≠ noAudioMsg) :
    goodUpd lo hi ⟨"processing", p, m⟩ :=
  have hne : ("processing" : String) ≠ "error" := by decide
  ⟨fun h => absurd h hne, fun _ => ⟨h1, h2⟩, hm⟩

lemma update_status_trace (s : PState) (st : String) (p : Nat) (m : String) :
    (update_status s st p m).trace = s.trace ++ [⟨st, p, m⟩] := rfl

lemma extendsBy_refl (lo hi : Nat) (tr : List StatusUpdate) :
    ExtendsBy lo hi tr tr :=
  ⟨[], by simp, List.chain'_nil, by simp⟩

lemma extendsBy_update {lo hi : Nat} (s : PState) {st : String} {p : Nat}
    {m : String} (h : goodUpd lo hi ⟨st, p, m⟩) :
    ExtendsBy lo hi s.trace (update_status s st p m).trace :=
  ⟨[⟨st, p, m⟩], rfl, List.chain'_singleton _, by simpa using h⟩

lemma extendsBy_mono_lo {lo lo' hi : Nat} {tr tr' : List StatusUpdate}
    (h : lo' ≤ lo) (he : ExtendsBy lo hi tr tr') : ExtendsBy lo' hi tr tr' := by
  obtain ⟨d, rfl, hc, hg⟩ := he
  exact ⟨d, rfl, hc, fun u hu => goodUpd_mono h (le_refl hi) (hg u hu)⟩

lemma extendsBy_trans {lo hi lo' hi' : Nat} {tr tr' tr'' : List StatusUpdate}
    (h1 : ExtendsBy lo hi tr tr') (h2 : ExtendsBy lo' hi' tr' tr'')
    (hl : lo ≤ lo') (hm : hi ≤ lo') (hh : hi ≤ hi') :
    ExtendsBy lo hi' tr tr'' := by
  obtain ⟨d1, rfl, hc1, hg1⟩ := h1
  obtain ⟨d2, rfl, hc2, hg2⟩ := h2
  refine ⟨d1 ++ d2, by rw [List.append_assoc], ?_, ?_⟩
  · refine hc1.append hc2 ?_
    intro x hx y hy hxp hyp
    have hgx := (hg1 x (mem_of_getLast?_mem hx)).2.1 hxp
    have hgy := (hg2 y (mem_of_head?_mem hy)).2.1 hyp
    omega
  · intro u hu
    rcases List.mem_append.1 hu with h | h
    · exact goodUpd_mono (le_refl lo) hh (hg1 u h)
    · exact goodUpd_mono hl (le_refl hi') (hg2 u h)

lemma traceInv_nil (hi : Nat) : TraceInv hi [] :=
  ⟨List.chain'_nil, by simp⟩

lemma traceInv_mono {hi hi' : Nat} {tr : List StatusUpdate}
    (h : hi ≤ hi') (hinv : TraceInv hi tr) : TraceInv hi' tr :=
  ⟨hinv.1, fun u hu => goodUpd_mono (le_refl 0) h (hinv.2 u hu)⟩

lemma traceInv_extend {hi lo hi' : Nat} {tr tr' : List StatusUpdate}
    (hinv : TraceInv hi tr) (he : ExtendsBy lo hi' tr tr')
    (h1 : hi ≤ lo) (h2 : hi ≤ hi') : TraceInv hi' tr' := by
  obtain ⟨d, rfl, hc, hg⟩ := he
  constructor
  · refine hinv.1.append hc ?_
    intro x hx y hy hxp hyp
    have hgx := (hinv.2 x (mem_of_getLast?_mem hx)).2.1 hxp
    have hgy := (hg y (mem_of_head?_mem hy)).2.1 hyp
    omega
  · intro u hu
    rcases List.mem_append.1 hu with h | h
    · exact goodUpd_mono (le_refl 0) h2 (hinv.2 u h)
    · exact goodUpd_mono (Nat.zero_le lo) (le_refl hi') (hg u h)

/-- A message of the shape `a ++ b` whose prefix `a` starts with a character
other than `'N'` is not the empty-tracks message. -/
lemma prefix_ne_noAudio (a b : String) (c : Char) (h : a.data.head? = some c)
    (hc : c ≠ 'N') : a ++ b ≠ noAudioMsg :=
  ne_noAudio_of_data_head (data_head?_append b h) hc

/-- Same for `a ++ b ++ d`. -/
lemma prefix2_ne_noAudio (a b d : String) (c : Char) (h : a.data.head? = some c)
    (hc : c ≠ 'N') : a ++ b ++ d ≠ noAudioMsg :=
  ne_noAudio_of_data_head (data_head?_append d (data_head?_append b h)) hc

/-- Same for `a ++ b ++ d ++ e`. -/
lemma prefix3_ne_noAudio (a b d e : String) (c : Char)
    (h : a.data.head? = some c) (hc : c ≠ 'N') :
    a ++ b ++ d ++ e ≠ noAudioMsg :=
  ne_noAudio_of_data_head
    (data_head?_append e (data_head?_append d (data_head?_append b h))) hc

/-! Per-stage trace extension lemmas. -/

lemma validate_files_extends (env : Env) (s : PState) :
    ExtendsBy 10 10 s.trace (validate_files env s).2.trace := by
  unfold validate_files
  split
  · exact extendsBy_update s
      (goodUpd_error (prefix_ne_noAudio _ _ 'S' (by decide) (by decide)))
  · split
    · exact extendsBy_update s
        (goodUpd_error (prefix_ne_noAudio _ _ 'I' (by decide) (by decide)))
    · split
      · exact extendsBy_update s
          (goodUpd_error (prefix_ne_noAudio _ _ 'A' (by decide) (by decide)))
      · exact extendsBy_update s
          (goodUpd_processing (le_refl 10) (le_refl 10) (by decide))

lemma imgProgress_mono (total i : Nat) :
    imgProgress total i ≤ imgProgress total (i + 1) := by
  have h : (i + 1) * 20 / total ≤ (i + 1 + 1) * 20 / total :=
    Nat.div_le_div_right (Nat.mul_le_mul_right 20 (Nat.le_succ (i + 1)))
  unfold imgProgress
  omega

lemma imgProgress_lb (total i : Nat) : 10 ≤ imgProgress total i :=
  Nat.le_add_right 10 _

lemma imgProgress_ub (total i : Nat) (h : i + 1 ≤ total) :
    imgProgress total i ≤ 30 := by
  have h1 : (i + 1) * 20 ≤ total * 20 := Nat.mul_le_mul_right 20 h
  have h2 : (i + 1) * 20 / total ≤ total * 20 / total := Nat.div_le_div_right h1
  have h3 : total * 20 / total = 20 := by
    rw [Nat.mul_comm]
    exact Nat.mul_div_cancel 20 (by omega)
  unfold imgProgress
  omega

lemma prepare_images_loop_extends (env : Env) (total : Nat)
    (imgs : List ImageAsset) :
    ∀ (i : Nat) (acc : List String) (s : PState), i + imgs.length ≤ total →
      ExtendsBy (imgProgress total i) 30 s.trace
        (prepare_images_loop env total imgs i acc s).2.trace := by
  induction imgs with
  | nil =>
      intro i acc s _
      exact extendsBy_refl _ _ _
  | cons a rest ih =>
      intro i acc s h
      have hi1 : i + 1 ≤ total := by
        simp only [List.length_cons] at h; omega
      unfold prepare_images_loop
      cases henv : env.imgConvert i with
      | error e =>
          simp only
          exact extendsBy_update s
            (goodUpd_error (prefix3_ne_noAudio _ _ _ _ 'E' (by decide) (by decide)))
      | ok u =>
          simp only
          have step1 : ExtendsBy (imgProgress total i) (imgProgress total i)
              s.trace
              (update_status s "processing" (imgProgress total i)
                ("Procesando imagen " ++ toString (i + 1) ++ "/30")).trace :=
            extendsBy_update s
              (goodUpd_processing (le_refl _) (le_refl _)
                (prefix2_ne_noAudio _ _ _ 'P' (by decide) (by decide)))
          have step2 := ih (i + 1) (acc ++ [imgOutName i])
            (update_status s "processing" (imgProgress total i)
              ("Procesando imagen " ++ toString (i + 1) ++ "/30"))
            (by simp only [List.length_cons] at h; omega)
          exact extendsBy_trans step1 step2 (imgProgress_mono total i)
            (imgProgress_mono total i) (imgProgress_ub total i hi1)

lemma prepare_images_extends (env : Env) (s : PState) :
    ExtendsBy 10 30 s.trace (prepare_images env s).2.trace := by
  have h := prepare_images_loop_extends env s.config.images.length
    s.config.images 0 [] s (by omega)
  exact extendsBy_mono_lo (imgProgress_lb _ 0) h

lemma prepare_audio_extends (env : Env) (s : PState) :
    ExtendsBy 35 40 s.trace (prepare_audio env s).2.trace := by
  unfold prepare_audio
  cases henv : env.narrConvert with
  | error e =>
      simp only
      exact extendsBy_update s
        (goodUpd_error (prefix_ne_noAudio _ _ 'E' (by decide) (by decide)))
  | ok u =>
      simp only
      have step35 : ExtendsBy 35 35 s.trace
          (update_status s "processing" 35 "Audio de narración procesado").trace :=
        extendsBy_update s
          (goodUpd_processing (le_refl 35) (le_refl 35) (by decide))
      cases hsel : s.config.selectedSoundtrack with
      | none =>
          simp only
          exact extendsBy_mono_lo (le_refl 35)
            (extendsBy_trans step35 (extendsBy_refl 40 40 _) (by omega) (by omega) (by omega))
      | some trackId =>
          simp only
          split
          · cases hst : env.strackConvert with
            | ok v =>
                simp only
                have step40 : ExtendsBy 40 40
                    (update_status s "processing" 35 "Audio de narración procesado").trace
                    (update_status
                      (update_status s "processing" 35 "Audio de narración procesado")
                      "processing" 40 "Soundtrack procesado").trace :=
                  extendsBy_update _
                    (goodUpd_processing (le_refl 40) (le_refl 40) (by decide))
                exact extendsBy_trans step35 step40 (by omega) (by omega) (by omega)
            | error e =>
                simp only
                exact extendsBy_trans step35 (extendsBy_refl 40 40 _)
                  (by omega) (by omega) (by omega)
          · exact extendsBy_trans step35 (extendsBy_refl 40 40 _)
              (by omega) (by omega) (by omega)

lemma create_video_timeline_extends (env : Env) (p : List String) (s : PState) :
    ExtendsBy 50 50 s.trace (create_video_timeline env p s).2.trace := by
  unfold create_video_timeline
  cases henv : env.timeline with
  | ok u =>
      simp only
      exact extendsBy_update s
        (goodUpd_processing (le_refl 50) (le_refl 50) (by decide))
  | error e =>
      simp only
      exact extendsBy_update s
        (goodUpd_error (prefix_ne_noAudio _ _ 'E' (by decide) (by decide)))

lemma add_thumbnail_extends (env : Env) (v : String) (s : PState) :
    ExtendsBy 60 60 s.trace (add_thumbnail env v s).2.trace := by
  unfold add_thumbnail
  cases s.config.thumbnail with
  | none => exact extendsBy_refl _ _ _
  | some t =>
      simp only
      cases env.thumbCreate with
      | error e => exact extendsBy_refl _ _ _
      | ok u =>
          simp only
          cases env.thumbConcat with
          | ok v' =>
              simp only
              exact extendsBy_update s
                (goodUpd_processing (le_refl 60) (le_refl 60) (by decide))
          | error e => exact extendsBy_refl _ _ _

lemma add_audio_mux_extends (env : Env) (s : PState) :
    ExtendsBy 75 75 s.trace
      ((match env.mux with
        | Except.ok _ =>
            ("with_audio.mp4",
             update_status s "processing" 75 "Audio agregado al video")
        | Except.error e =>
            ("", update_status s "error" 0 ("Error agregando audio: " ++ e))
        : String × PState)).2.trace := by
  cases env.mux with
  | ok u =>
      simp only
      exact extendsBy_update s
        (goodUpd_processing (le_refl 75) (le_refl 75) (by decide))
  | error e =>
      simp only
      exact extendsBy_update s
        (goodUpd_error (prefix_ne_noAudio _ _ 'E' (by decide) (by decide)))

lemma add_audio_extends (env : Env) (v : String) (af : AudioFiles) (s : PState)
    (h : af.isEmpty = false) :
    ExtendsBy 75 75 s.trace (add_audio env v af s).2.trace := by
  obtain ⟨no, so⟩ := af
  cases no <;> cases so
  · exact absurd h (by decide)
  · exact add_audio_mux_extends env s
  · exact add_audio_mux_extends env s
  · exact add_audio_mux_extends env s

lemma apply_effects_extends (env : Env) (v : String) (s : PState) :
    ExtendsBy 85 85 s.trace (apply_effects env v s).2.trace := by
  unfold apply_effects
  cases s.config.selectedFilter with
  | none => exact extendsBy_refl _ _ _
  | some filterId =>
      simp only
      split
      · split
        · cases env.effects with
          | ok u =>
              simp only
              exact extendsBy_update s
                (goodUpd_processing (le_refl 85) (le_refl 85) (by decide))
          | error e => exact extendsBy_refl _ _ _
        · exact extendsBy_refl _ _ _
      · exact extendsBy_refl _ _ _

lemma add_fade_out_ok_extends (env : Env) (v : String) (s : PState)
    (p : String) (s' : PState) (h : add_fade_out env v s = Except.ok (p, s')) :
    ExtendsBy 95 95 s.trace s'.trace := by
  unfold add_fade_out at h
  cases henv : env.probe with
  | callFailed e =>
      rw [henv] at h
      simp only [Except.ok.injEq, Prod.mk.injEq] at h
      rw [← h.2]
      exact extendsBy_refl _ _ _
  | badOutput raw =>
      rw [henv] at h
      exact Except.noConfusion h
  | gotDuration =>
      rw [henv] at h
      cases hf : env.fade with
      | ok u =>
          rw [hf] at h
          simp only [Except.ok.injEq, Prod.mk.injEq] at h
          rw [← h.2]
          exact extendsBy_update s
            (goodUpd_processing (le_refl 95) (le_refl 95) (by decide))
      | error e =>
          rw [hf] at h
          simp only [Except.ok.injEq, Prod.mk.injEq] at h
          rw [← h.2]
          exact extendsBy_refl _ _ _

lemma add_fade_out_error_trace (env : Env) (v : String) (s : PState)
    (m : String) (s' : PState)
    (h : add_fade_out env v s = Except.error (m, s')) : s' = s := by
  unfold add_fade_out at h
  cases henv : env.probe with
  | callFailed e => rw [henv] at h; exact Except.noConfusion h
  | badOutput raw =>
      rw [henv] at h
      simp only [Except.error.injEq, Prod.mk.injEq] at h
      exact h.2.symm
  | gotDuration =>
      rw [henv] at h
      cases hf : env.fade with
      | ok u => rw [hf] at h; exact Except.noConfusion h
      | error e => rw [hf] at h; exact Except.noConfusion h

/-- Classification of a `processBody` result by the trace invariant: a normal
return satisfies it at bound 100, an escaped exception at bound 85 (the last
possible `processing` update before the fade stage). -/
def ResultInv : Except (String × PState) (Bool × PState) → Prop
  | Except.ok r => TraceInv 100 r.2.trace
  | Except.error e => TraceInv 85 e.2.trace

lemma processBody_resultInv (env : Env) (s : PState)
    (hinv : TraceInv 10 s.trace) : ResultInv (processBody env s) := by
  simp only [processBody]
  set s1 := (validate_files env s).2 with hs1
  set r2 := prepare_images env s1 with hr2
  set r3 := prepare_audio env r2.2 with hr3
  set r4 := create_video_timeline env r2.1 r3.2 with hr4
  set r5 := add_thumbnail env r4.1 r4.2 with hr5
  set r6 := add_audio env r5.1 r3.1 r5.2 with hr6
  set r7 := apply_effects env r6.1 r6.2 with hr7
  have I1 : TraceInv 10 s1.trace :=
    traceInv_extend hinv (validate_files_extends env s) (le_refl 10) (le_refl 10)
  have I2 : TraceInv 30 r2.2.trace :=
    traceInv_extend I1 (prepare_images_extends env s1) (by omega) (by omega)
  have I3 : TraceInv 40 r3.2.trace :=
    traceInv_extend I2 (prepare_audio_extends env r2.2) (by omega) (by omega)
  have I4 : TraceInv 50 r4.2.trace :=
    traceInv_extend I3 (create_video_timeline_extends env r2.1 r3.2)
      (by omega) (by omega)
  have I5 : TraceInv 60 r5.2.trace :=
    traceInv_extend I4 (add_thumbnail_extends env r4.1 r4.2) (by omega) (by omega)
  split
  · exact traceInv_mono (by omega) I1
  · split
    · exact traceInv_mono (by omega) I2
    · split
      · exact traceInv_mono (by omega) I3
      · rename_i hAF
        have hAF' : r3.1.isEmpty = false := by
          revert hAF; cases r3.1.isEmpty <;> simp
        have I6 : TraceInv 75 r6.2.trace :=
          traceInv_extend I5 (add_audio_extends env r5.1 r3.1 r5.2 hAF')
            (by omega) (by omega)
        have I7 : TraceInv 85 r7.2.trace :=
          traceInv_extend I6 (apply_effects_extends env r6.1 r6.2)
            (by omega) (by omega)
        split
        · exact traceInv_mono (by omega) I4
        · split
          · exact traceInv_mono (by omega) I6
          · split
            · rename_i err heq
              obtain ⟨m, sE⟩ := err
              have hE := add_fade_out_error_trace env r7.1 r7.2 m sE heq
              subst hE
              exact I7
            · rename_i r8 heq
              have hext := add_fade_out_ok_extends env r7.1 r7.2 r8.1 r8.2 heq
              exact traceInv_mono (by omega)
                (traceInv_extend I7 hext (by omega) (by omega))

lemma process_traceInv (env : Env) (s : PState) (hinv : TraceInv 10 s.trace) :
    TraceInv 100 (process env s).2.trace := by
  have h := processBody_resultInv env s hinv
  unfold process
  cases hpb : processBody env s with
  | ok r =>
      rw [hpb] at h
      exact h
  | error e =>
      rw [hpb] at h
      obtain ⟨m, sE⟩ := e
      exact @traceInv_extend 85 85 100 _ _ h
        (@extendsBy_update 85 100 sE "error" 0 ("Error inesperado: " ++ m)
          (goodUpd_error (prefix_ne_noAudio _ _ 'E' (by decide) (by decide))))
        (by omega) (by omega)

/-- When every conversion from index `i` on succeeds, the image loop appends
exactly one indexed output path per input image, in order. -/
lemma prepare_images_loop_paths (env : Env) (total : Nat)
    (imgs : List ImageAsset) :
    ∀ (i : Nat) (acc : List String) (s : PState),
      (∀ j, j < imgs.length → env.imgConvert (i + j) = Except.ok ()) →
      (prepare_images_loop env total imgs i acc s).1 =
        acc ++ (List.range imgs.length).map (fun j => imgOutName (i + j)) := by
  induction imgs with
  | nil =>
      intro i acc s _
      simp [prepare_images_loop]
  | cons a rest ih =>
      intro i acc s h
      have h0 : env.imgConvert i = Except.ok () := by
        have := h 0 (by simp)
        simpa using this
      unfold prepare_images_loop
      simp only [h0]
      have ih' := ih (i + 1) (acc ++ [imgOutName i])
        (update_status s "processing" (imgProgress total i)
          ("Procesando imagen " ++ toString (i + 1) ++ "/30"))
        (fun j hj => by
          have hh := h (j + 1) (by simp only [List.length_cons]; omega)
          rw [show i + 1 + j = i + (j + 1) by omega]
          exact hh)
      rw [ih']
      have hr : (List.range (rest.length + 1)).map (fun j => imgOutName (i + j)) =
          imgOutName i ::
            (List.range rest.length).map (fun j => imgOutName (i + 1 + j)) := by
        rw [List.range_succ_eq_map, List.map_cons, List.map_map]
        simp only [Nat.add_zero]
        congr 1
        apply List.map_congr_left
        intro j _
        simp only [Function.comp_apply]
        congr 1
        omega
      simp only [List.length_cons, hr, List.append_assoc, List.singleton_append]

/-- The `audio_files` dictionary returned by `prepare_audio` is either empty
(failed narration) or holds the narration entry. -/
lemma prepare_audio_fst (env : Env) (s : PState) :
    (prepare_audio env s).1 = ⟨none, none⟩ ∨
    (prepare_audio env s).1.narration = some "narration.wav" := by
  unfold prepare_audio
  cases env.narrConvert with
  | error e => left; rfl
  | ok u =>
      right
      simp only
      cases s.config.selectedSoundtrack with
      | none => rfl
      | some trackId =>
          simp only
          split
          · cases env.strackConvert with
            | ok v => rfl
            | error e => rfl
          · rfl

/-- With a successful narration conversion, `prepare_audio` always returns a
dictionary holding the narration entry. -/
lemma prepare_audio_narration_ok (env : Env) (s : PState)
    (he : env.narrConvert = Except.ok ()) :
    (prepare_audio env s).1.narration = some "narration.wav" := by
  unfold prepare_audio
  simp only [he]
  cases s.config.selectedSoundtrack with
  | none => rfl
  | some trackId =>
      simp only
      split
      · cases env.strackConvert with
        | ok v => rfl
        | error e => rfl
      · rfl

/-! Claim theorems. -/

/-- C1: in every run of the pipeline, the sequence of status updates is such
that any two successive `processing` updates have non-decreasing progress,
and every `error` update carries progress 0. -/
theorem c1_status_update_invariant (env : Env) (cfg : Config) :
    List.Chain' procPairOk (process env (initState cfg)).2.trace ∧
    ∀ u ∈ (process env (initState cfg)).2.trace,
      u.status = "error" → u.progress = 0 := by
  have h := process_traceInv env (initState cfg) (traceInv_nil 10)
  exact ⟨h.1, fun u hu he => (h.2 u hu).1 he⟩

theorem c1_status_update_invariant_witness :
    ({ status := "error", progress := 0,
       message := "Se requieren 30 imágenes, encontradas: 0" } :
      StatusUpdate).progress = 0 :=
  (c1_status_update_invariant envAllOk cfgNoImages).2
    { status := "error", progress := 0,
      message := "Se requieren 30 imágenes, encontradas: 0" }
    (by decide) (by decide)

/-- C2: the Validation stage checks, in order, (a) the image count is exactly
30, recording `error` naming the actual count; (b) every referenced image
exists, recording `error` with the first missing filename; (c) the narration
file exists, recording `error` otherwise; on full success it records
`processing` at 10; and a failed validation makes `process` return
immediately, before any transformation stage runs. -/
theorem c2_validation_stage (env : Env) (s : PState) :
    (s.config.images.length ≠ 30 →
        validate_files env s = (false, update_status s "error" 0
          ("Se requieren 30 imágenes, encontradas: " ++
            toString s.config.images.length)))
  ∧ (s.config.images.length = 30 →
      (∀ im, s.config.images.find? (fun a => !(env.imageExists a.filename)) =
          some im →
        validate_files env s = (false, update_status s "error" 0
          ("Imagen no encontrada: " ++ im.filename)))
    ∧ (s.config.images.find? (fun a => !(env.imageExists a.filename)) = none →
        (env.audioExists s.config.audio.narration.filename = false →
          validate_files env s = (false, update_status s "error" 0
            ("Audio de narración no encontrado: " ++
              s.config.audio.narration.filename)))
      ∧ (env.audioExists s.config.audio.narration.filename = true →
          validate_files env s =
            (true, update_status s "processing" 10
              "Archivos validados correctamente"))))
  ∧ ((validate_files env s).1 = false →
      process env s = (false, (validate_files env s).2)) := by
  refine ⟨?_, ?_, ?_⟩
  · intro hne
    unfold validate_files
    rw [if_pos hne]
  · intro h30
    constructor
    · intro im hfind
      unfold validate_files
      rw [if_neg (by omega)]
      simp only [hfind]
    · intro hnone
      constructor
      · intro hna
        unfold validate_files
        rw [if_neg (by omega)]
        simp only [hnone, hna, Bool.not_false, if_pos]
      · intro hna
        unfold validate_files
        rw [if_neg (by omega)]
        simp only [hnone, hna, Bool.not_true, Bool.false_eq_true, if_false]
  · intro hv
    simp [process, processBody, hv]

theorem c2_validation_stage_witness :
    (validate_files envAllOk (initState cfgNoImages) =
      (false, update_status (initState cfgNoImages) "error" 0
        ("Se requieren 30 imágenes, encontradas: " ++
          toString (initState cfgNoImages).config.images.length)))
  ∧ (validate_files envAllOk (initState cfg30) =
      (true, update_status (initState cfg30) "processing" 10
        "Archivos validados correctamente"))
  ∧ (process envAllOk (initState cfgNoImages) =
      (false, (validate_files envAllOk (initState cfgNoImages)).2)) :=
  ⟨(c2_validation_stage envAllOk (initState cfgNoImages)).1 (by decide),
   (((c2_validation_stage envAllOk (initState cfg30)).2.1 (by decide)).2
      (by decide)).2 rfl,
   (c2_validation_stage envAllOk (initState cfgNoImages)).2.2 (by decide)⟩

/-- C3 counterexample: calling `update_status` with an empty message argument
does not overwrite the `message` field — the prior value `"previo"` survives
(`if message:` in the source skips the assignment), refuting that all three
fields are always overwritten with the given arguments. -/
theorem c3_counterexample :
    (update_status statePrevMsg "processing" 5 "").config.message = "previo" ∧
    ¬ (update_status statePrevMsg "processing" 5 "").config.message = "" := by
  exact ⟨rfl, by decide⟩

/-- C3 (amended): `update_status` always overwrites `status` and `progress`
with its arguments, overwrites `message` only when the argument is non-empty
(keeping the prior value otherwise), and then rewrites the full configuration
record to persistent storage. -/
theorem c3_update_status_overwrites (s : PState) (st : String) (p : Nat)
    (m : String) :
    (update_status s st p m).config.status = st
  ∧ (update_status s st p m).config.progress = p
  ∧ (update_status s st p m).config.message =
      (if m == "" then s.config.message else m)
  ∧ (update_status s st p m).file =
      FileContent.record (update_status s st p m).config :=
  ⟨rfl, rfl, rfl, rfl⟩

/-- C4 counterexample: the persistence step edits `config.json` in place
(truncating `open(..., "w")` followed by a write), so a crash after the open
but before the write completes leaves a truncated file, not the previously
persisted record. -/
theorem c4_counterexample :
    persistCrash (FileContent.record cfg30) cfgNoImages WriteCrash.afterOpen =
      FileContent.truncated ∧
    FileContent.truncated ≠ FileContent.record cfg30 := by
  exact ⟨rfl, by decide⟩

/-- C4 (amended): the status-persistence step rewrites the configuration file
in place: a crash before the file is opened preserves the previous durable
record, but a crash between the truncating open and the completed write
leaves a truncated file; only a completed write holds the new record. -/
theorem c4_persist_crash_behavior (prev : FileContent) (c : Config) :
    persistCrash prev c WriteCrash.beforeOpen = prev
  ∧ persistCrash prev c WriteCrash.afterOpen = FileContent.truncated
  ∧ persistCrash prev c WriteCrash.afterWrite = FileContent.record c :=
  ⟨rfl, rfl, rfl⟩

/-- C5 counterexample: on a video whose duration the probe cannot determine
(`ffprobe` exits zero printing `N/A`), the Fade-Out stage does not return the
previous video path — it raises, aborting to the top-level handler, which
ends the run in an `error` status instead of a final output. -/
theorem c5_counterexample :
    add_fade_out envProbeNA "with_audio.mp4" (initState cfg30) =
      Except.error ("could not convert string to float: N/A",
        initState cfg30) ∧
    (process envProbeNA (initState cfg30)).1 = false ∧
    (process envProbeNA (initState cfg30)).2.trace.getLast? =
      some { status := "error", progress := 0,
             message := "Error inesperado: could not convert string to float: N/A" } := by
  exact ⟨rfl, rfl, rfl⟩

/-- C5 (amended): the Fade-Out stage returns the previous stage's video path
verbatim when the probe invocation fails or when the fade operation fails;
but when the probe succeeds with output that cannot be parsed as a float, the
resulting error escapes the stage and aborts the pipeline. -/
theorem c5_fade_out_fallback (env : Env) (v : String) (s : PState) :
    (∀ e, env.probe = ProbeOutcome.callFailed e →
        add_fade_out env v s = Except.ok (v, s))
  ∧ (∀ e, env.probe = ProbeOutcome.gotDuration → env.fade = Except.error e →
        add_fade_out env v s = Except.ok (v, s))
  ∧ (env.probe = ProbeOutcome.gotDuration → env.fade = Except.ok () →
        add_fade_out env v s = Except.ok ("final_video.mp4",
          update_status s "processing" 95 "Fade-out agregado"))
  ∧ (∀ raw, env.probe = ProbeOutcome.badOutput raw →
        add_fade_out env v s =
          Except.error ("could not convert string to float: " ++ raw, s)) := by
  refine ⟨?_, ?_, ?_, ?_⟩
  · intro e h
    unfold add_fade_out
    simp only [h]
  · intro e h1 h2
    unfold add_fade_out
    simp only [h1, h2]
  · intro h1 h2
    unfold add_fade_out
    simp only [h1, h2]
  · intro raw h
    unfold add_fade_out
    simp only [h]

theorem c5_fade_out_fallback_witness :
    add_fade_out envProbeFail "with_audio.mp4" (initState cfg30) =
      Except.ok ("with_audio.mp4", initState cfg30) :=
  (c5_fade_out_fallback envProbeFail "with_audio.mp4" (initState cfg30)).1
    "ffprobe exited 1" rfl

/-- C10: `update_status` leaves every configuration field other than
`status`, `progress` and `message` unchanged in memory, and the record it
persists carries those fields with their prior values. -/
theorem c10_update_status_frame (s : PState) (st : String) (p : Nat)
    (m : String) :
    (update_status s st p m).config.id = s.config.id
  ∧ (update_status s st p m).config.images = s.config.images
  ∧ (update_status s st p m).config.audio = s.config.audio
  ∧ (update_status s st p m).config.selectedSoundtrack =
      s.config.selectedSoundtrack
  ∧ (update_status s st p m).config.selectedFilter = s.config.selectedFilter
  ∧ (update_status s st p m).config.thumbnail = s.config.thumbnail
  ∧ (update_status s st p m).config.outputFile = s.config.outputFile
  ∧ (update_status s st p m).config.completedAt = s.config.completedAt
  ∧ (update_status s st p m).file =
      FileContent.record (update_status s st p m).config :=
  ⟨rfl, rfl, rfl, rfl, rfl, rfl, rfl, rfl, rfl⟩

/-- C6: in the Audio Normalization stage, a missing soundtrack asset or a
failed soundtrack conversion is non-fatal — the soundtrack is dropped from
the result and only the narration checkpoint update is recorded, and the
pipeline continues past the audio guard — whereas a failed narration
conversion records an `error` update and makes `process` abort.  (The
warning emitted on a failed soundtrack conversion is a log print, not a
status update, and is outside the modelled state.) -/
theorem c6_soundtrack_nonfatal_narration_fatal (env : Env) (s : PState) :
    (∀ e, env.narrConvert = Except.error e →
        (prepare_audio env s =
          (⟨none, none⟩,
           update_status s "error" 0 ("Error procesando audio: " ++ e)))
      ∧ ∀ paths s2, (validate_files env s).1 = true →
          prepare_images env (validate_files env s).2 = (paths, s2) →
          paths.isEmpty = false →
          process env s =
            (false, update_status s2 "error" 0 ("Error procesando audio: " ++ e)))
  ∧ (env.narrConvert = Except.ok () →
      ((prepare_audio env s).1.narration = some "narration.wav")
    ∧ ((prepare_audio env s).1.isEmpty = false)
    ∧ ∀ trackId, s.config.selectedSoundtrack = some trackId →
        ¬ trackId = "" →
        ((env.soundtrackExists trackId = false →
            prepare_audio env s = (⟨some "narration.wav", none⟩,
              update_status s "processing" 35 "Audio de narración procesado"))
      ∧ (∀ e, env.soundtrackExists trackId = true →
            env.strackConvert = Except.error e →
            prepare_audio env s = (⟨some "narration.wav", none⟩,
              update_status s "processing" 35 "Audio de narración procesado")))) := by
  constructor
  · intro e he
    constructor
    · unfold prepare_audio
      simp only [he]
    · intro paths s2 hval hpi hne
      have hpa2 : prepare_audio env s2 =
          (⟨none, none⟩,
           update_status s2 "error" 0 ("Error procesando audio: " ++ e)) := by
        unfold prepare_audio
        simp only [he]
      simp [process, processBody, hval, hpi, hne, hpa2, AudioFiles.isEmpty]
  · intro he
    refine ⟨prepare_audio_narration_ok env s he, ?_, ?_⟩
    · have hn := prepare_audio_narration_ok env s he
      simp [AudioFiles.isEmpty, hn]
    · intro trackId hsel hne
      have hb : (trackId != "") = true := bne_iff_ne.mpr hne
      constructor
      · intro hex
        unfold prepare_audio
        simp only [he, hsel, hb, hex, Bool.and_false, Bool.false_eq_true,
          if_false]
      · intro e hex hst
        unfold prepare_audio
        simp only [he, hsel, hb, hex, hst, Bool.and_self, if_pos]

theorem c6_soundtrack_nonfatal_narration_fatal_witness :
    (prepare_audio envNarrFail (initState cfg30) =
      (⟨none, none⟩, update_status (initState cfg30) "error" 0
        ("Error procesando audio: " ++ "boom")))
  ∧ (prepare_audio envAllOk
        (initState { cfg30 with selectedSoundtrack := some "chill" })).1.narration =
      some "narration.wav" :=
  ⟨((c6_soundtrack_nonfatal_narration_fatal envNarrFail (initState cfg30)).1
      "boom" rfl).1,
   ((c6_soundtrack_nonfatal_narration_fatal envAllOk
      (initState { cfg30 with selectedSoundtrack := some "chill" })).2 rfl).1⟩

/-- C7 counterexample: an exception raised while loading the configuration
(the constructor runs before `process` and outside any handler) is not
converted into an `error` status update — it escapes to the interpreter with
no status update performed, refuting that every exception of the run is
caught at the top level. -/
theorem c7_counterexample :
    mainRun envAllOk true
        (Except.error "Expecting value: line 1 column 1 (char 0)") =
      RunOutcome.uncaught "Expecting value: line 1 column 1 (char 0)" := rfl

/-- C7 (amended): every exception escaping a stage inside `process` is caught
by its top-level handler and converted into an `error` status update before
`process` reports failure to its caller; but an exception raised during
configuration loading happens before `process` and propagates uncaught, with
no status update. -/
theorem c7_top_level_exception_handling (env : Env) (s : PState) :
    (∀ m sErr, processBody env s = Except.error (m, sErr) →
        process env s =
          (false, update_status sErr "error" 0 ("Error inesperado: " ++ m)))
  ∧ (∀ e, mainRun env true (Except.error e) = RunOutcome.uncaught e) := by
  constructor
  · intro m sErr h
    simp [process, h]
  · intro e
    rfl

theorem c7_top_level_exception_handling_witness :
    process envProbeNA (initState cfg30) =
      (false, update_status sPreFade "error" 0
        ("Error inesperado: " ++ "could not convert string to float: N/A")) :=
  (c7_top_level_exception_handling envProbeNA (initState cfg30)).1
    "could not convert string to float: N/A" sPreFade rfl

/-- C8: whenever every per-image conversion succeeds, the Image
Normalization stage produces exactly one output artifact per input image, in
input order, named by zero-padded index (`img_00`, `img_01`, …).  Input image
dimensions are handled by the external engine and do not appear in the
stage's control flow. -/
theorem c8_image_normalization_outputs (env : Env) (s : PState)
    (h : ∀ i, i < s.config.images.length → env.imgConvert i = Except.ok ()) :
    (prepare_images env s).1.length = s.config.images.length
  ∧ (prepare_images env s).1 =
      (List.range s.config.images.length).map imgOutName := by
  have hp := prepare_images_loop_paths env s.config.images.length
    s.config.images 0 [] s (fun j hj => by simpa using h j hj)
  have hp' : (prepare_images env s).1 =
      (List.range s.config.images.length).map imgOutName := by
    unfold prepare_images
    rw [hp]
    simp
  exact ⟨by rw [hp']; simp, hp'⟩

theorem c8_image_normalization_outputs_witness :
    (prepare_images envAllOk (initState cfg30)).1 =
      (List.range (initState cfg30).config.images.length).map imgOutName :=
  (c8_image_normalization_outputs envAllOk (initState cfg30)
    (fun _ _ => rfl)).2

/-- C9: the `"No audio tracks available"` error branch of `add_audio` is
unreachable from the coordinator: a non-empty `prepare_audio` result always
contains the narration track, and no status update of any `process` run ever
carries that message. -/
theorem c9_no_audio_branch_unreachable (env : Env) (cfg : Config) :
    (∀ s, (prepare_audio env s).1.isEmpty = false →
        (prepare_audio env s).1.narration = some "narration.wav")
  ∧ ∀ u ∈ (process env (initState cfg)).2.trace,
      u.message ≠ "No audio tracks available" := by
  constructor
  · intro s hne
    rcases prepare_audio_fst env s with h | h
    · rw [h] at hne
      exact absurd hne (by decide)
    · exact h
  · intro u hu
    have h := process_traceInv env (initState cfg) (traceInv_nil 10)
    exact (h.2 u hu).2.2

theorem c9_no_audio_branch_unreachable_witness :
    (prepare_audio envAllOk (initState cfg30)).1.narration =
      some "narration.wav" ∧
    ({ status := "processing", progress := 10,
       message := "Archivos validados correctamente" } :
      StatusUpdate).message ≠ "No audio tracks available" :=
  ⟨(c9_no_audio_branch_unreachable envAllOk cfg30).1 (initState cfg30)
    (by decide),
   (c9_no_audio_branch_unreachable envAllOk cfg30).2
    { status := "processing", progress := 10,
      message := "Archivos validados correctamente" } (by decide)⟩

end VideoWorker
